import Mathlib

/-!
Verification development for `tax_calculator.py`, a single-file capital-gains
tax calculator. The script pairs a consumption CSV with a sale-confirmation
PDF, fetches a monthly CPI series, validates that every required month has an
index value, computes inflation-adjusted gains and tax, and writes a two-sheet
report.

Shallow embedding conventions:
- Python floats are modelled as rationals (`ℚ`); the claims under scrutiny are
  exact algebraic identities between the derived quantities.
- External effects (PDF text extraction via regex, HTTP, CSV parsing, the
  Excel writer) are modelled at their boundary: the regex/extraction results,
  the HTTP outcome, and the CSV parse outcome are inputs to the embedded
  functions, and "writing the report" is an event in the returned trace.
- Python exceptions are modelled with `Except`: a raised error terminates the
  enclosing computation and propagates, exactly as an uncaught exception does.
-/

set_option autoImplicit false

namespace TaxCalc

/-- A calendar date (year, month, day), as carried by pandas Timestamps in the
script. Only the year/month part feeds CPI lookups; the full date appears in
error messages. -/
structure CalDate where
  year : Nat
  month : Nat
  day : Nat
deriving DecidableEq

/-- A first-of-month key of the CPI series: `Timestamp("YYYY-MM-01")` in the
script, i.e. just a (year, month) pair. -/
structure YearMonth where
  year : Nat
  month : Nat
deriving DecidableEq

/-- `d.to_period("M").to_timestamp()` / `settlement_date.replace(day=1)`:
the month key of a date. -/
def monthOf (d : CalDate) : YearMonth :=
  { year := d.year, month := d.month }

/-- The CPI series built by `fetch_cpi_series` (line 97): month keys with
rational index values. The script's `sort_index()` only reorders entries and
does not affect key-based lookup, so the embedding keeps insertion order. -/
abbrev CpiSeries : Type := List (YearMonth × ℚ)

/-- Key-based lookup on the series: `cpi.get(key)` / `Series.map` in the
script, `none` when the month has no entry (exact key lookup, no
interpolation). -/
def seriesGet (s : CpiSeries) (m : YearMonth) : Option ℚ :=
  (s.find? (fun e => decide (e.1 = m))).map (fun e => e.2)

/-- One row of the consumption CSV (line 117): columns "Acquisition date",
"Consumption", "Purchase price". -/
structure ConsumptionRecord where
  acq_date : CalDate
  quantity : ℚ
  purchase_price : ℚ
deriving DecidableEq

/-- The four sale parameters extracted from the sale PDF
(`parse_sale_pdf`, line 54). -/
structure SaleParams where
  sale_price : ℚ
  settlement_date : CalDate
  ex_rate : ℚ
  fees : ℚ
deriving DecidableEq

/-- `TAX_RATE = 0.25` (line 16). -/
def TAX_RATE : ℚ := 25 / 100

/-- One row of the "Data" sheet: the input columns plus the derived columns
added by lines 130-159 of the script, with the script's column names. -/
structure CalcRow where
  acq_date : CalDate
  quantity : ℚ
  purchase_price : ℚ
  CPI_acq : ℚ
  CPI_set : ℚ
  CPI_MULTIPLIER : ℚ
  gross_sale_euro : ℚ
  cost_euro : ℚ
  real_gain_shekel : ℚ
  tax_to_pay : ℚ
deriving DecidableEq

/-- The derived fields of one row, exactly the vectorised arithmetic of lines
154-159: `CPI_MULTIPLIER = CPI_set / CPI_acq`,
`gross_sale_euro = Consumption * sale_price`,
`cost_euro = Consumption * Purchase price * CPI_MULTIPLIER`,
`real_gain_shekel = (gross_sale_euro - cost_euro) * ex_rate`,
`tax_to_pay = real_gain_shekel * TAX_RATE`. -/
def mkCalcRow (r : ConsumptionRecord) (cpi_acq cpi_set : ℚ) (p : SaleParams) :
    CalcRow :=
  { acq_date := r.acq_date
    quantity := r.quantity
    purchase_price := r.purchase_price
    CPI_acq := cpi_acq
    CPI_set := cpi_set
    CPI_MULTIPLIER := cpi_set / cpi_acq
    gross_sale_euro := r.quantity * p.sale_price
    cost_euro := r.quantity * r.purchase_price * (cpi_set / cpi_acq)
    real_gain_shekel :=
      (r.quantity * p.sale_price
        - r.quantity * r.purchase_price * (cpi_set / cpi_acq)) * p.ex_rate
    tax_to_pay :=
      (r.quantity * p.sale_price
        - r.quantity * r.purchase_price * (cpi_set / cpi_acq)) * p.ex_rate
        * TAX_RATE }

/-- The report written by lines 166-177: the "Data" sheet rows and the
one-row "Summary" sheet with its fixed column headers. -/
structure Report where
  rows : List CalcRow
  Fees_shekels : ℚ
  Total_real_gain_shekel : ℚ
  Total_tax_before_fees : ℚ
  Total_tax_to_pay : ℚ
deriving DecidableEq

/-- The calculation errors raised inside `process_pair`:
"Missing CPI value for acquisition date(s): ..." (line 141, carrying every
missing acquisition date) and "Missing CPI value for settlement date: ..."
(line 149, carrying the settlement date). -/
inductive CalcErr where
  | missingAcq (dates : List CalDate)
  | missingSettlement (date : CalDate)
deriving DecidableEq

/-- Accumulator pass behind `uniqueFirst`: keep the values not seen yet, in
order of first appearance. -/
def uniqueFirstAux (seen : List CalDate) : List CalDate → List CalDate
  | [] => []
  | d :: ds =>
    if d ∈ seen then uniqueFirstAux seen ds
    else d :: uniqueFirstAux (d :: seen) ds

/-- Pandas `.unique()` on the missing-date column: first occurrence of each
value, in order of appearance (line 140). -/
def uniqueFirst (l : List CalDate) : List CalDate :=
  uniqueFirstAux [] l

/-- The calculation stage of `process_pair` (lines 130-177): map each row's
acquisition month to a CPI value; fail listing every missing acquisition date
if any lookup is undefined (lines 137-141); look up the settlement month and
fail naming the settlement date if undefined (lines 143-149); otherwise
compute the derived columns and summary totals (lines 151-177). -/
def computeReport (rows : List ConsumptionRecord) (p : SaleParams)
    (cpi : CpiSeries) : Except CalcErr Report :=
  let missing_acq :=
    (rows.filter (fun r => (seriesGet cpi (monthOf r.acq_date)).isNone)).map
      (fun r => r.acq_date)
  if missing_acq.isEmpty then
    match seriesGet cpi (monthOf p.settlement_date) with
    | none => .error (.missingSettlement p.settlement_date)
    | some cpi_set =>
      let calcRows := rows.map (fun r =>
        mkCalcRow r ((seriesGet cpi (monthOf r.acq_date)).getD 0) cpi_set p)
      let fees_shekels := p.fees * p.ex_rate
      let total_real_gain := (calcRows.map (fun c => c.real_gain_shekel)).sum
      let total_tax_before_fees := (calcRows.map (fun c => c.tax_to_pay)).sum
      .ok
        { rows := calcRows
          Fees_shekels := fees_shekels
          Total_real_gain_shekel := total_real_gain
          Total_tax_before_fees := total_tax_before_fees
          Total_tax_to_pay := total_tax_before_fees - fees_shekels }
  else
    .error (.missingAcq (uniqueFirst missing_acq))

/-- The outcome of one `regex-search-then-convert` step of `parse_sale_pdf`:
`noMatch` when the pattern (and its fallback, where one exists) found
nothing, so the Python expression `... if m else None` yields `None`;
`converted v` when the pattern matched and the conversion (`float` or
`strptime`) succeeded with value `v`; `convFail s` when the pattern matched
the text `s` but the conversion raised an uncaught `ValueError`. -/
inductive ExtractResult (α : Type) where
  | noMatch : ExtractResult α
  | converted (v : α) : ExtractResult α
  | convFail (s : String) : ExtractResult α
deriving DecidableEq

/-- The field value the RuntimeError check of lines 48-53 sees: `None` for a
regex miss, the converted value otherwise. On `convFail` the enclosing call
has already raised, so this arm is never reached by `parse_sale_pdf`. -/
def ExtractResult.toOption {α : Type} : ExtractResult α → Option α
  | .noMatch => none
  | .converted v => some v
  | .convFail _ => none

/-- The four extraction results of `parse_sale_pdf` (lines 27-46). The regex
engine and PDF text extraction are external capabilities; the embedding
starts from their results. `sale_price` and `settlement_date` carry the full
three-way outcome, because their captured text can defeat the conversion:
`float(m.group(1).replace(",", ""))` at line 28 raises `ValueError` on
captures of `[\d.,]+` such as "12.34.56", and
`strptime(m.group(1), "%d %b %Y")` at line 32 raises on full month names
such as "10 July 2025". `ex_rate` and `fees` remain plain Options: their
patterns capture only `\d+\.\d{5}` and `\d+\.\d{2}`, strings `float` always
accepts, so no conversion-failure path exists for them. -/
structure PdfExtract where
  sale_price : ExtractResult ℚ
  settlement_date : ExtractResult CalDate
  ex_rate : Option ℚ
  fees : Option ℚ
deriving DecidableEq

/-- The pipeline errors of `process_pair` as raised Python exceptions:
`parseFail` is the RuntimeError of lines 48-53 and carries the four extraction
results exactly as the message interpolates them (a `none` component is a
field that could not be found); `valueFail` is an uncaught `ValueError`
escaping from `float` (line 28) or `strptime` (line 32) when a regex matched
text the conversion rejects, carrying the offending captured text — this
error does not name any field; `csvFail` and `httpFail` are errors propagating
from `pd.read_csv` (line 117) and `requests`/`raise_for_status` (lines 72-73);
`noObservations` is the RuntimeError of line 94; `calc` wraps the lookup
errors of lines 141 and 149. -/
inductive PairErr where
  | parseFail (sale_price : Option ℚ) (settlement_date : Option CalDate)
      (ex_rate : Option ℚ) (fees : Option ℚ)
  | valueFail (culprit : String)
  | csvFail (msg : String)
  | httpFail (msg : String)
  | noObservations
  | calc (e : CalcErr)
deriving DecidableEq

/-- Lines 27-54 of `parse_sale_pdf`, in the source's evaluation order: the
sale-price conversion runs first (line 28) and an uncaught `ValueError`
aborts the call with no field named; then the settlement-date conversion
(line 32) likewise; the exchange-rate and fee conversions (lines 39, 46)
cannot fail; finally, if any of the four values is `None`, raise the
RuntimeError of lines 48-53 whose message names all four values (missing
ones as `None`); otherwise return the quadruple. -/
def parse_sale_pdf (x : PdfExtract) :
    Except PairErr (ℚ × CalDate × ℚ × ℚ) :=
  match x.sale_price with
  | .convFail s => .error (.valueFail s)
  | sp =>
    match x.settlement_date with
    | .convFail s => .error (.valueFail s)
    | sd =>
      match sp.toOption, sd.toOption, x.ex_rate, x.fees with
      | some a, some b, some c, some d => .ok (a, b, c, d)
      | _, _, _, _ =>
        .error (.parseFail sp.toOption sd.toOption x.ex_rate x.fees)

/-- One `Obs` node of the SDMX response, after the attribute-variant merging
and period parsing of lines 80-91: `TIME_PERIOD` is `none` when both attribute
variants are absent or the period string did not parse, `OBS_VALUE` is `none`
when both value attribute variants are absent. -/
structure Obs where
  TIME_PERIOD : Option YearMonth
  OBS_VALUE : Option ℚ
deriving DecidableEq

/-- The series-building part of `fetch_cpi_series` (lines 77-97): keep the
observations whose period and value are both present (malformed nodes are
silently skipped, lines 82-88), fail with "No CPI observations found" when
nothing remains (line 94), otherwise return the series. No check is made on
the values themselves (zero or negative index values are accepted as-is). -/
def fetch_cpi_series (obs : List Obs) : Except PairErr CpiSeries :=
  let entries := obs.filterMap (fun o =>
    match o.TIME_PERIOD, o.OBS_VALUE with
    | some t, some v => some (t, v)
    | _, _ => none)
  if entries.isEmpty then .error .noObservations else .ok entries

/-- Decidable equality for `Except`, needed to evaluate concrete runs. -/
instance exceptDecEq {α β : Type} [DecidableEq α] [DecidableEq β] :
    DecidableEq (Except α β)
  | .ok a, .ok b =>
    if h : a = b then .isTrue (by rw [h])
    else .isFalse (by intro hc; cases hc; exact h rfl)
  | .ok _, .error _ => .isFalse (by intro hc; cases hc)
  | .error _, .ok _ => .isFalse (by intro hc; cases hc)
  | .error a, .error b =>
    if h : a = b then .isTrue (by rw [h])
    else .isFalse (by intro hc; cases hc; exact h rfl)

/-- The input of one `process_pair` call, with the external boundaries
resolved: `date_key` is the filename regex match of line 102 (`none` when the
CSV name is unrecognized), `pdf_exists` is the `os.path.exists` check of line
108, `pdf` is the extraction result for the companion PDF, `csv` is the
outcome of `pd.read_csv`, and `http` is the outcome of the HTTP request
(observation nodes on success). -/
structure PairInput where
  date_key : Option String
  pdf_exists : Bool
  pdf : PdfExtract
  csv : Except String (List ConsumptionRecord)
  http : Except String (List Obs)
deriving DecidableEq

/-- An observable side effect of `process_pair`: writing the two-sheet report
file (lines 166-177). -/
inductive Event where
  | wrote (rep : Report)
deriving DecidableEq

/-- `process_pair` (lines 100-179): skip silently on an unrecognized filename
or a missing companion PDF (returning no report and raising nothing); then
parse the PDF, read the CSV, fetch the CPI series, and run the calculation,
propagating the first raised error; on success write the report (the only
point where an output file is produced). Returns the trace of write events
together with the outcome (`ok none` for a skip). -/
def process_pair (inp : PairInput) :
    List Event × Except PairErr (Option Report) :=
  match inp.date_key with
  | none => ([], .ok none)
  | some _ =>
    if inp.pdf_exists then
      match parse_sale_pdf inp.pdf with
      | .error e => ([], .error e)
      | .ok (sale_price, settlement_date, ex_rate, fees_euro) =>
        match inp.csv with
        | .error msg => ([], .error (.csvFail msg))
        | .ok rows =>
          match inp.http with
          | .error msg => ([], .error (.httpFail msg))
          | .ok obsList =>
            match fetch_cpi_series obsList with
            | .error e => ([], .error e)
            | .ok cpi =>
              match computeReport rows
                  { sale_price := sale_price
                    settlement_date := settlement_date
                    ex_rate := ex_rate
                    fees := fees_euro } cpi with
              | .error e => ([], .error (.calc e))
              | .ok rep => ([Event.wrote rep], .ok (some rep))
    else ([], .ok none)

/-- `main` (lines 182-184): process the discovered pairs one at a time, in
order. There is no exception handling around `process_pair`, so a raised
error propagates out of the loop: the run ends with that error and later
pairs are never reached. Returns the per-pair outcomes of the pairs that were
attempted. -/
def main_loop : List PairInput → List (Except PairErr (Option Report))
  | [] => []
  | p :: ps =>
    match (process_pair p).2 with
    | .ok r => .ok r :: main_loop ps
    | .error e => [.error e]

/-- The consumption table of the spec's worked example
(`consumption_8.7.2025.csv`): one row, acquisition 2023-01-15, quantity 10,
purchase price 5.00. -/
def exampleRows : List ConsumptionRecord :=
  [{ acq_date := { year := 2023, month := 1, day := 15 }
     quantity := 10
     purchase_price := 5 }]

/-- The sale parameters of the worked example (`sale_8.7.2025.pdf`):
sale price 6.00, settlement 2025-07-10, exchange rate 4.0, fees 2.00. -/
def exampleParams : SaleParams :=
  { sale_price := 6
    settlement_date := { year := 2025, month := 7, day := 10 }
    ex_rate := 4
    fees := 2 }

/-- The index series of the worked example: Jan-2023 = 100, Jul-2025 = 120. -/
def exampleSeries : CpiSeries :=
  [({ year := 2023, month := 1 }, 100), ({ year := 2025, month := 7 }, 120)]

/-- The report the worked example is expected to produce:
cpi_multiplier = 6/5 (= 1.2), gross_sale_value = 60, inflation-adjusted cost
= 60, real_gain = 0, tax_due = 0, fees in shekels = 8,
total_tax_to_pay = -8. -/
def exampleReport : Report :=
  { rows := [{ acq_date := { year := 2023, month := 1, day := 15 }
               quantity := 10
               purchase_price := 5
               CPI_acq := 100
               CPI_set := 120
               CPI_MULTIPLIER := 6 / 5
               gross_sale_euro := 60
               cost_euro := 60
               real_gain_shekel := 0
               tax_to_pay := 0 }]
    Fees_shekels := 8
    Total_real_gain_shekel := 0
    Total_tax_before_fees := 0
    Total_tax_to_pay := -8 }

/-- An index series missing the example's acquisition month (Jan-2023). -/
def missSeries : CpiSeries := [({ year := 2025, month := 7 }, 120)]

/-- An index series with the example's acquisition month but not its
settlement month (Jul-2025). -/
def acqOnlySeries : CpiSeries := [({ year := 2023, month := 1 }, 100)]

/-- A fully resolved pair input reproducing the worked example: recognized
filename, companion PDF present, all four parameters extracted, CSV parsed,
HTTP fetch successful. -/
def goodInput : PairInput :=
  { date_key := some "8.7.2025"
    pdf_exists := true
    pdf := { sale_price := .converted 6
             settlement_date := .converted { year := 2025, month := 7, day := 10 }
             ex_rate := some 4
             fees := some 2 }
    csv := .ok exampleRows
    http := .ok [{ TIME_PERIOD := some { year := 2023, month := 1 }
                   OBS_VALUE := some 100 },
                 { TIME_PERIOD := some { year := 2025, month := 7 }
                   OBS_VALUE := some 120 }] }

/-- The same pair input but with the HTTP request failing, so that
`process_pair` raises. -/
def badInput : PairInput := { goodInput with http := .error "HTTP 500" }

/-- Observation nodes assigning the index value 0 to the example's
acquisition month Jan-2023. -/
def zeroObs : List Obs :=
  [{ TIME_PERIOD := some { year := 2023, month := 1 }, OBS_VALUE := some 0 },
   { TIME_PERIOD := some { year := 2025, month := 7 }, OBS_VALUE := some 120 }]

/-- The series built from `zeroObs`: Jan-2023 = 0, Jul-2025 = 120. -/
def zeroSeries : CpiSeries :=
  [({ year := 2023, month := 1 }, 0), ({ year := 2025, month := 7 }, 120)]

/-- The worked-example pair input with the zero-valued index series: every
lookup succeeds, so no validation fires, and the division
`CPI_set / CPI_acq` has a zero divisor. -/
def zeroInput : PairInput := { goodInput with http := .ok zeroObs }

/-- A sale document on which the settlement-date regex matches the text
"10 July 2025" but `strptime(..., "%d %b %Y")` rejects the full month name
and raises `ValueError` (line 32), while the other three fields extract
fine. -/
def badDateExtract : PdfExtract :=
  { sale_price := .converted 6
    settlement_date := .convFail "10 July 2025"
    ex_rate := some 4
    fees := some 2 }

/-! Helper lemmas shared by the claim theorems. -/

/-- Membership through the accumulator pass of `uniqueFirst`: an element is
kept iff it occurs in the input and was not already seen. -/
theorem mem_uniqueFirstAux (l : List CalDate) :
    ∀ (seen : List CalDate) (d : CalDate),
      d ∈ uniqueFirstAux seen l ↔ d ∈ l ∧ d ∉ seen := by
  induction l with
  | nil => intro seen d; simp [uniqueFirstAux]
  | cons e ds ih =>
    intro seen d
    simp only [uniqueFirstAux]
    by_cases he : e ∈ seen
    · rw [if_pos he, ih]
      simp only [List.mem_cons]
      by_cases hde : d = e
      · subst hde; tauto
      · tauto
    · rw [if_neg he]
      simp only [List.mem_cons, ih, List.mem_cons]
      by_cases hde : d = e
      · subst hde; tauto
      · tauto

/-- `uniqueFirst` preserves exactly the set of values of its input. -/
theorem mem_uniqueFirst (l : List CalDate) (d : CalDate) :
    d ∈ uniqueFirst l ↔ d ∈ l := by
  simp [uniqueFirst, mem_uniqueFirstAux]

/-- A successful series lookup returns a value paired with the looked-up
month somewhere in the series. -/
theorem seriesGet_mem (s : CpiSeries) (m : YearMonth) (v : ℚ)
    (h : seriesGet s m = some v) : (m, v) ∈ s := by
  unfold seriesGet at h
  cases hf : s.find? (fun e => decide (e.1 = m)) with
  | none => rw [hf] at h; simp at h
  | some e =>
    rw [hf] at h
    have hm : e ∈ s := List.mem_of_find?_eq_some hf
    have hp0 := @List.find?_some _ (fun x => decide (x.1 = m)) e s hf
    have hp : e.1 = m := of_decide_eq_true hp0
    obtain ⟨e1, e2⟩ := e
    simp only [Option.map_some'] at h
    cases h
    cases hp
    exact hm

/-- Anatomy of a successful `computeReport` run: the settlement lookup
succeeded, every acquisition lookup succeeded, the data rows are the mapped
`mkCalcRow`s, and the summary fields satisfy the definitions of lines
155-164 of the script. -/
theorem computeReport_ok_spec (rows : List ConsumptionRecord) (p : SaleParams)
    (cpi : CpiSeries) (rep : Report)
    (hok : computeReport rows p cpi = .ok rep) :
    ∃ cs, seriesGet cpi (monthOf p.settlement_date) = some cs ∧
      (∀ r ∈ rows, (seriesGet cpi (monthOf r.acq_date)).isSome = true) ∧
      rep.rows = rows.map (fun r =>
        mkCalcRow r ((seriesGet cpi (monthOf r.acq_date)).getD 0) cs p) ∧
      rep.Fees_shekels = p.fees * p.ex_rate ∧
      rep.Total_real_gain_shekel
        = (rep.rows.map (fun c => c.real_gain_shekel)).sum ∧
      rep.Total_tax_before_fees = (rep.rows.map (fun c => c.tax_to_pay)).sum ∧
      rep.Total_tax_to_pay = rep.Total_tax_before_fees - rep.Fees_shekels := by
  simp only [computeReport] at hok
  split at hok
  case isFalse => exact absurd hok (by simp)
  case isTrue hempty =>
    split at hok
    case h_1 => exact absurd hok (by simp)
    case h_2 cs hcs =>
      simp only [Except.ok.injEq] at hok
      subst hok
      refine ⟨cs, hcs, ?_, rfl, rfl, rfl, rfl, rfl⟩
      intro r hr
      simp only [List.isEmpty_iff, List.map_eq_nil_iff,
        List.filter_eq_nil_iff] at hempty
      have := hempty r hr
      cases hnone : seriesGet cpi (monthOf r.acq_date) with
      | none => rw [hnone] at this; simp at this
      | some v => simp

/-- Evaluation of the worked example: the calculator accepts it and produces
`exampleReport`. -/
theorem computeReport_example_eq :
    computeReport exampleRows exampleParams exampleSeries
      = Except.ok exampleReport := by
  simp [computeReport, exampleRows, exampleParams, exampleSeries, exampleReport,
    seriesGet, monthOf, mkCalcRow, TAX_RATE, List.find?]
  norm_num

/-! Claim theorems. -/

/-- C1: for every consumption row processed with sale parameters
(sale_price, settlement_date, exchange_rate) and an index series defining
the CPI at acquisition and at settlement, the derived fields of the
corresponding report row equal exactly: cpi_multiplier = CPI_at_settlement /
CPI_at_acquisition, gross_sale_value = quantity * sale_price,
inflation_adjusted_cost = quantity * purchase_price * cpi_multiplier,
real_gain = (gross_sale_value - inflation_adjusted_cost) * exchange_rate,
and tax_due = real_gain * 0.25, the 25% rate applied to real_gain and not to
gross proceeds. -/
theorem c1_row_formulas (rows : List ConsumptionRecord) (p : SaleParams)
    (cpi : CpiSeries) (rep : Report)
    (hok : computeReport rows p cpi = .ok rep) :
    rep.rows.length = rows.length ∧
    TAX_RATE = 25 / 100 ∧
    ∀ i (hi : i < rows.length) (hj : i < rep.rows.length),
      ∃ ca cs,
        seriesGet cpi (monthOf rows[i].acq_date) = some ca ∧
        seriesGet cpi (monthOf p.settlement_date) = some cs ∧
        rep.rows[i].CPI_acq = ca ∧
        rep.rows[i].CPI_set = cs ∧
        rep.rows[i].CPI_MULTIPLIER = cs / ca ∧
        rep.rows[i].gross_sale_euro = rows[i].quantity * p.sale_price ∧
        rep.rows[i].cost_euro
          = rows[i].quantity * rows[i].purchase_price
            * rep.rows[i].CPI_MULTIPLIER ∧
        rep.rows[i].real_gain_shekel
          = (rep.rows[i].gross_sale_euro - rep.rows[i].cost_euro)
            * p.ex_rate ∧
        rep.rows[i].tax_to_pay = rep.rows[i].real_gain_shekel * TAX_RATE := by
  obtain ⟨cs, hcs, hall, hrows, -, -, -, -⟩ :=
    computeReport_ok_spec rows p cpi rep hok
  refine ⟨by rw [hrows]; simp, rfl, ?_⟩
  intro i hi hj
  have hmem : rows[i] ∈ rows := List.getElem_mem hi
  obtain ⟨ca, hca⟩ := Option.isSome_iff_exists.mp (hall _ hmem)
  refine ⟨ca, cs, hca, hcs, ?_⟩
  have hget : rep.rows[i]
      = mkCalcRow rows[i]
          ((seriesGet cpi (monthOf rows[i].acq_date)).getD 0) cs p := by
    simp [hrows, List.getElem_map]
  rw [hget, hca]
  simp [mkCalcRow]

/-- Witness for C1 at the worked example. -/
theorem c1_row_formulas_witness :
    exampleReport.rows.length = exampleRows.length ∧
    TAX_RATE = 25 / 100 ∧
    ∀ i (hi : i < exampleRows.length) (hj : i < exampleReport.rows.length),
      ∃ ca cs,
        seriesGet exampleSeries (monthOf exampleRows[i].acq_date) = some ca ∧
        seriesGet exampleSeries (monthOf exampleParams.settlement_date)
          = some cs ∧
        exampleReport.rows[i].CPI_acq = ca ∧
        exampleReport.rows[i].CPI_set = cs ∧
        exampleReport.rows[i].CPI_MULTIPLIER = cs / ca ∧
        exampleReport.rows[i].gross_sale_euro
          = exampleRows[i].quantity * exampleParams.sale_price ∧
        exampleReport.rows[i].cost_euro
          = exampleRows[i].quantity * exampleRows[i].purchase_price
            * exampleReport.rows[i].CPI_MULTIPLIER ∧
        exampleReport.rows[i].real_gain_shekel
          = (exampleReport.rows[i].gross_sale_euro
              - exampleReport.rows[i].cost_euro) * exampleParams.ex_rate ∧
        exampleReport.rows[i].tax_to_pay
          = exampleReport.rows[i].real_gain_shekel * TAX_RATE :=
  c1_row_formulas exampleRows exampleParams exampleSeries exampleReport
    computeReport_example_eq

/-- C2: for every well-formed pair, the pair-level totals equal exactly
fees_in_local_currency = fees * exchange_rate, total_real_gain = the sum of
real_gain over all rows, total_tax_before_fees = the sum of tax_due over all
rows, and total_tax_to_pay = total_tax_before_fees -
fees_in_local_currency. -/
theorem c2_totals (rows : List ConsumptionRecord) (p : SaleParams)
    (cpi : CpiSeries) (rep : Report)
    (hok : computeReport rows p cpi = .ok rep) :
    rep.Fees_shekels = p.fees * p.ex_rate ∧
    rep.Total_real_gain_shekel
      = (rep.rows.map (fun c => c.real_gain_shekel)).sum ∧
    rep.Total_tax_before_fees = (rep.rows.map (fun c => c.tax_to_pay)).sum ∧
    rep.Total_tax_to_pay = rep.Total_tax_before_fees - rep.Fees_shekels := by
  obtain ⟨cs, -, -, -, h1, h2, h3, h4⟩ :=
    computeReport_ok_spec rows p cpi rep hok
  exact ⟨h1, h2, h3, h4⟩

/-- Witness for C2 at the worked example. -/
theorem c2_totals_witness :
    exampleReport.Fees_shekels
      = exampleParams.fees * exampleParams.ex_rate ∧
    exampleReport.Total_real_gain_shekel
      = (exampleReport.rows.map (fun c => c.real_gain_shekel)).sum ∧
    exampleReport.Total_tax_before_fees
      = (exampleReport.rows.map (fun c => c.tax_to_pay)).sum ∧
    exampleReport.Total_tax_to_pay
      = exampleReport.Total_tax_before_fees - exampleReport.Fees_shekels :=
  c2_totals exampleRows exampleParams exampleSeries exampleReport
    computeReport_example_eq

/-- C3: for every pair in which at least one row's acquisition month has no
entry in the index series (exact key lookup, no interpolation), the
calculator fails, returning an error instead of a report, before any derived
fields or output exist, and the missing-acquisition error lists a set of
dates that contains exactly every acquisition date whose month lookup is
undefined, not just the first one. -/
theorem c3_missing_acquisition (rows : List ConsumptionRecord)
    (p : SaleParams) (cpi : CpiSeries)
    (h : ∃ r ∈ rows, seriesGet cpi (monthOf r.acq_date) = none) :
    ∃ ds, computeReport rows p cpi = .error (.missingAcq ds) ∧
      ∀ d, d ∈ ds ↔ ∃ r ∈ rows, r.acq_date = d ∧
        seriesGet cpi (monthOf r.acq_date) = none := by
  obtain ⟨r, hr, hnone⟩ := h
  have hmem : r.acq_date ∈ (rows.filter
      (fun q => (seriesGet cpi (monthOf q.acq_date)).isNone)).map
      (fun q => q.acq_date) :=
    List.mem_map.mpr ⟨r, List.mem_filter.mpr ⟨hr, by simp [hnone]⟩, rfl⟩
  have hne : ((rows.filter
      (fun q => (seriesGet cpi (monthOf q.acq_date)).isNone)).map
      (fun q => q.acq_date)).isEmpty = false := by
    cases hemp : ((rows.filter
        (fun q => (seriesGet cpi (monthOf q.acq_date)).isNone)).map
        (fun q => q.acq_date)).isEmpty
    · rfl
    · rw [List.isEmpty_iff] at hemp
      rw [hemp] at hmem
      cases hmem
  refine ⟨uniqueFirst ((rows.filter
      (fun q => (seriesGet cpi (monthOf q.acq_date)).isNone)).map
      (fun q => q.acq_date)), ?_, ?_⟩
  · simp [computeReport, hne]
  · intro d
    rw [mem_uniqueFirst]
    simp only [List.mem_map, List.mem_filter, Option.isNone_iff_eq_none]
    constructor
    · rintro ⟨q, ⟨hq, hqn⟩, rfl⟩
      exact ⟨q, hq, rfl, hqn⟩
    · rintro ⟨q, hq, rfl, hqn⟩
      exact ⟨q, ⟨hq, hqn⟩, rfl⟩

/-- Witness for C3: the worked-example row against a series lacking
Jan-2023. -/
theorem c3_missing_acquisition_witness :
    ∃ ds, computeReport exampleRows exampleParams missSeries
        = .error (.missingAcq ds) ∧
      ∀ d, d ∈ ds ↔ ∃ r ∈ exampleRows, r.acq_date = d ∧
        seriesGet missSeries (monthOf r.acq_date) = none :=
  c3_missing_acquisition exampleRows exampleParams missSeries
    ⟨{ acq_date := { year := 2023, month := 1, day := 15 }
       quantity := 10
       purchase_price := 5 },
     by simp [exampleRows],
     by simp [missSeries, seriesGet, monthOf, List.find?]⟩

/-- C4: for every pair whose acquisition months all have index values but
whose settlement month has none, the calculator fails with the
missing-settlement error naming the settlement date, an error that is a
different constructor from (never equal to) the missing-acquisition
error. -/
theorem c4_missing_settlement (rows : List ConsumptionRecord)
    (p : SaleParams) (cpi : CpiSeries)
    (hacq : ∀ r ∈ rows, (seriesGet cpi (monthOf r.acq_date)).isSome = true)
    (hset : seriesGet cpi (monthOf p.settlement_date) = none) :
    computeReport rows p cpi
      = .error (.missingSettlement p.settlement_date) ∧
    ∀ ds d, CalcErr.missingAcq ds ≠ CalcErr.missingSettlement d := by
  constructor
  · have hflt : rows.filter
        (fun r => (seriesGet cpi (monthOf r.acq_date)).isNone) = [] := by
      rw [List.filter_eq_nil_iff]
      intro r hr
      have hs := hacq r hr
      cases hn : seriesGet cpi (monthOf r.acq_date) <;> simp_all
    simp [computeReport, hflt, hset]
  · intro ds d hcontra
    exact CalcErr.noConfusion hcontra

/-- Witness for C4: the worked-example row against a series that has
Jan-2023 but lacks Jul-2025. -/
theorem c4_missing_settlement_witness :
    computeReport exampleRows exampleParams acqOnlySeries
      = .error (.missingSettlement exampleParams.settlement_date) ∧
    ∀ ds d, CalcErr.missingAcq ds ≠ CalcErr.missingSettlement d :=
  c4_missing_settlement exampleRows exampleParams acqOnlySeries
    (by intro r hr
        simp only [exampleRows, List.mem_singleton] at hr
        subst hr
        simp [acqOnlySeries, seriesGet, monthOf, List.find?])
    (by simp [acqOnlySeries, exampleParams, seriesGet, monthOf, List.find?])

/-- C5 counterexample: the claim that a failure in one pair does not prevent
subsequent pairs from being attempted is false on the code. With a first
pair whose HTTP fetch raises and a second pair that on its own succeeds and
writes a report, the run produced by `main` ends at the first pair's error:
its outcome list has one entry instead of two, so the second pair is never
attempted. -/
theorem c5_counterexample :
    process_pair badInput = ([], .error (.httpFail "HTTP 500")) ∧
    process_pair goodInput
      = ([Event.wrote exampleReport], .ok (some exampleReport)) ∧
    main_loop [badInput, goodInput] = [.error (.httpFail "HTTP 500")] ∧
    (main_loop [badInput, goodInput]).length
      ≠ [badInput, goodInput].length := by
  have h1 : process_pair badInput = ([], .error (.httpFail "HTTP 500")) := by
    simp [process_pair, badInput, goodInput, parse_sale_pdf, ExtractResult.toOption]
  have h2 : process_pair goodInput
      = ([Event.wrote exampleReport], .ok (some exampleReport)) := by
    simp [process_pair, goodInput, parse_sale_pdf, ExtractResult.toOption,
      fetch_cpi_series,
      computeReport, exampleRows, exampleReport, seriesGet, monthOf,
      mkCalcRow, TAX_RATE, List.find?]
    norm_num
  have h3 : main_loop [badInput, goodInput]
      = [.error (.httpFail "HTTP 500")] := by
    simp [main_loop, h1]
  exact ⟨h1, h2, h3, by rw [h3]; simp⟩

/-- C5 amended: the pairs are processed in order and a raised error in one
pair aborts the whole run, so the pairs after the failing one are never
attempted; the run's outcomes are exactly the failing pair's error (earlier
pairs, having succeeded or been skipped, already contributed their
outcomes through the successful branch of `main_loop`). -/
theorem c5_error_aborts_run (p : PairInput) (ps : List PairInput)
    (e : PairErr) (h : (process_pair p).2 = .error e) :
    main_loop (p :: ps) = [.error e] := by
  simp [main_loop, h]

/-- Witness for the amended C5 at the concrete failing pair. -/
theorem c5_error_aborts_run_witness :
    main_loop (badInput :: [goodInput]) = [.error (.httpFail "HTTP 500")] :=
  c5_error_aborts_run badInput [goodInput] (.httpFail "HTTP 500")
    (by simp [process_pair, badInput, goodInput, parse_sale_pdf, ExtractResult.toOption])

/-- C6: for every pair input, the write-event trace of `process_pair` is
exactly one complete report when processing succeeds with a report, and
empty otherwise: on any parse, fetch, or lookup error (and on any skip) no
output is written, so a report file exists only after every validation has
passed. -/
theorem c6_all_or_nothing (inp : PairInput) :
    (process_pair inp).1 = match (process_pair inp).2 with
      | .ok (some rep) => [Event.wrote rep]
      | _ => [] := by
  unfold process_pair
  repeat first
  | rfl
  | split

/-- C7 counterexample: the claimed dichotomy — return all four values or
raise the descriptive error identifying the missing fields — is false of the
program. On a document whose settlement-date text "10 July 2025" matches the
regex but defeats `strptime` (line 32), the extractor raises the bare
`ValueError` carrying only the offending text: it neither returns values nor
raises the field-naming RuntimeError of lines 48-53. -/
theorem c7_counterexample :
    parse_sale_pdf badDateExtract = .error (.valueFail "10 July 2025") ∧
    ¬((∃ sp sd fx fe, parse_sale_pdf badDateExtract = .ok (sp, sd, fx, fe)) ∨
      (∃ a b c d, parse_sale_pdf badDateExtract
        = .error (.parseFail a b c d))) := by
  refine ⟨rfl, ?_⟩
  rintro (⟨sp, sd, fx, fe, h⟩ | ⟨a, b, c, d, h⟩) <;>
    simp [parse_sale_pdf, badDateExtract] at h

/-- C7 amended: for every sale document the extractor has exactly three
outcomes: it returns all four values, each one exactly the extracted field;
or, when the sale-price or settlement-date text matched its regex but
failed conversion, it propagates the uncaught `ValueError` carrying that
text and naming no field; or, with no conversion failure but some field
unmatched, it raises the descriptive error naming the four extraction
outcomes (the `none` components being precisely the fields that could not
be found, and at least one is `none`). It never returns a result with a
missing field. -/
theorem c7_parse_trichotomy (x : PdfExtract) :
    (∃ sp sd fx fe, parse_sale_pdf x = .ok (sp, sd, fx, fe) ∧
      x.sale_price = .converted sp ∧ x.settlement_date = .converted sd ∧
      x.ex_rate = some fx ∧ x.fees = some fe) ∨
    (∃ s, parse_sale_pdf x = .error (.valueFail s) ∧
      (x.sale_price = .convFail s ∨ x.settlement_date = .convFail s)) ∨
    (parse_sale_pdf x
        = .error (.parseFail x.sale_price.toOption x.settlement_date.toOption
            x.ex_rate x.fees) ∧
      (x.sale_price.toOption = none ∨ x.settlement_date.toOption = none ∨
        x.ex_rate = none ∨ x.fees = none) ∧
      (∀ s, x.sale_price ≠ .convFail s) ∧
      (∀ s, x.settlement_date ≠ .convFail s)) := by
  rcases x with ⟨sp, sd, fx, fe⟩
  cases sp <;> cases sd <;> cases fx <;> cases fe <;>
    simp [parse_sale_pdf, ExtractResult.toOption]

/-- C8: on the spec's worked example (one row acquired 2023-01-15 with
quantity 10 and purchase price 5.00; sale price 6.00, settlement 2025-07-10,
exchange rate 4.0, fees 2.00; index Jan-2023 = 100 and Jul-2025 = 120) the
calculator produces exactly cpi_multiplier = 6/5 (= 1.2), gross_sale_value
= 60, inflation_adjusted_cost = 60, real_gain = 0, tax_due = 0,
fees_in_local_currency = 8, and total_tax_to_pay = -8. -/
theorem c8_worked_example :
    computeReport exampleRows exampleParams exampleSeries
      = .ok exampleReport ∧
    exampleReport.rows.map (fun c =>
        (c.CPI_MULTIPLIER, c.gross_sale_euro, c.cost_euro,
          c.real_gain_shekel, c.tax_to_pay))
      = [(6 / 5, 60, 60, 0, 0)] ∧
    exampleReport.Fees_shekels = 8 ∧
    exampleReport.Total_tax_to_pay = -8 :=
  ⟨computeReport_example_eq, by simp [exampleReport], rfl, rfl⟩

/-- C9: for every report row, real_gain is zero whenever gross_sale_value
equals inflation_adjusted_cost, and then tax_due is zero too; in particular
a single-row table whose purchase price equals the sale price and whose
cpi_multiplier is 1 yields real_gain = 0 and tax_due = 0. -/
theorem c9_zero_gain (rows : List ConsumptionRecord) (p : SaleParams)
    (cpi : CpiSeries) (rep : Report)
    (hok : computeReport rows p cpi = .ok rep) :
    (∀ cr ∈ rep.rows, cr.gross_sale_euro = cr.cost_euro →
      cr.real_gain_shekel = 0 ∧ cr.tax_to_pay = 0) ∧
    (∀ r cr, rows = [r] → rep.rows = [cr] →
      r.purchase_price = p.sale_price → cr.CPI_MULTIPLIER = 1 →
      cr.real_gain_shekel = 0 ∧ cr.tax_to_pay = 0) := by
  obtain ⟨cs, hcs, hall, hrows, -, -, -, -⟩ :=
    computeReport_ok_spec rows p cpi rep hok
  have hrow : ∀ cr ∈ rep.rows,
      cr.real_gain_shekel
        = (cr.gross_sale_euro - cr.cost_euro) * p.ex_rate ∧
      cr.tax_to_pay = cr.real_gain_shekel * TAX_RATE := by
    intro cr hcr
    rw [hrows] at hcr
    obtain ⟨r, hr, rfl⟩ := List.mem_map.mp hcr
    simp [mkCalcRow]
  have hzero : ∀ cr ∈ rep.rows, cr.gross_sale_euro = cr.cost_euro →
      cr.real_gain_shekel = 0 ∧ cr.tax_to_pay = 0 := by
    intro cr hcr heq
    obtain ⟨hg, ht⟩ := hrow cr hcr
    have hr0 : cr.real_gain_shekel = 0 := by
      rw [hg, heq, sub_self, zero_mul]
    exact ⟨hr0, by rw [ht, hr0, zero_mul]⟩
  refine ⟨hzero, ?_⟩
  intro r cr hrowseq hrepeq hpp hmult
  subst hrowseq
  simp only [List.map_cons, List.map_nil] at hrows
  rw [hrows] at hrepeq
  simp only [List.cons.injEq, and_true] at hrepeq
  have hcr : cr ∈ rep.rows := by rw [hrepeq] at hrows; rw [hrows]; simp
  refine hzero cr hcr ?_
  have hcrEq : cr
      = mkCalcRow r ((seriesGet cpi (monthOf r.acq_date)).getD 0) cs p :=
    hrepeq.symm
  subst hcrEq
  simp only [mkCalcRow] at hmult ⊢
  rw [hmult, mul_one, hpp]

/-- Witness for C9 at the worked example. -/
theorem c9_zero_gain_witness :
    (∀ cr ∈ exampleReport.rows, cr.gross_sale_euro = cr.cost_euro →
      cr.real_gain_shekel = 0 ∧ cr.tax_to_pay = 0) ∧
    (∀ r cr, exampleRows = [r] → exampleReport.rows = [cr] →
      r.purchase_price = exampleParams.sale_price →
      cr.CPI_MULTIPLIER = 1 →
      cr.real_gain_shekel = 0 ∧ cr.tax_to_pay = 0) :=
  c9_zero_gain exampleRows exampleParams exampleSeries exampleReport
    computeReport_example_eq

/-- C10: the division computing cpi_multiplier is unguarded and index values
are never validated for positivity. Under the precondition that every value
in the series is strictly positive, every divisor `CPI_acq` used by a
successful run is nonzero (the division-by-zero case is unreachable); and
for the concrete series assigning 0 to the acquisition month Jan-2023, the
fetch accepts the zero observation and `process_pair` raises no error and
still writes a report. -/
theorem c10_unguarded_division (rows : List ConsumptionRecord)
    (p : SaleParams) (cpi : CpiSeries) (rep : Report)
    (hpos : ∀ e ∈ cpi, 0 < e.2)
    (hok : computeReport rows p cpi = .ok rep) :
    (∀ cr ∈ rep.rows, cr.CPI_acq ≠ 0 ∧
      cr.CPI_MULTIPLIER = cr.CPI_set / cr.CPI_acq) ∧
    fetch_cpi_series zeroObs = .ok zeroSeries ∧
    (process_pair zeroInput).2.isOk = true ∧
    (process_pair zeroInput).1 ≠ [] := by
  refine ⟨?_, ?_, ?_, ?_⟩
  · intro cr hcr
    obtain ⟨cs, hcs, hall, hrows, -, -, -, -⟩ :=
      computeReport_ok_spec rows p cpi rep hok
    rw [hrows] at hcr
    obtain ⟨r, hr, rfl⟩ := List.mem_map.mp hcr
    obtain ⟨ca, hca⟩ := Option.isSome_iff_exists.mp (hall r hr)
    have hmem := seriesGet_mem cpi (monthOf r.acq_date) ca hca
    have hpos2 : (0 : ℚ) < ca := hpos _ hmem
    constructor
    · show (seriesGet cpi (monthOf r.acq_date)).getD 0 ≠ 0
      rw [hca]
      exact ne_of_gt hpos2
    · simp [mkCalcRow]
  · simp [fetch_cpi_series, zeroObs, zeroSeries]
  · simp [process_pair, zeroInput, goodInput, zeroObs, parse_sale_pdf,
      ExtractResult.toOption,
      fetch_cpi_series, computeReport, exampleRows, seriesGet, monthOf,
      mkCalcRow, TAX_RATE, List.find?, Except.isOk, Except.toBool]
  · simp [process_pair, zeroInput, goodInput, zeroObs, parse_sale_pdf,
      ExtractResult.toOption,
      fetch_cpi_series, computeReport, exampleRows, seriesGet, monthOf,
      mkCalcRow, TAX_RATE, List.find?]

/-- Witness for C10 at the worked example, whose series values 100 and 120
are strictly positive. -/
theorem c10_unguarded_division_witness :
    (∀ cr ∈ exampleReport.rows, cr.CPI_acq ≠ 0 ∧
      cr.CPI_MULTIPLIER = cr.CPI_set / cr.CPI_acq) ∧
    fetch_cpi_series zeroObs = .ok zeroSeries ∧
    (process_pair zeroInput).2.isOk = true ∧
    (process_pair zeroInput).1 ≠ [] :=
  c10_unguarded_division exampleRows exampleParams exampleSeries
    exampleReport (by intro e he; simp [exampleSeries] at he
                      rcases he with h | h <;> rw [h] <;> norm_num)
    computeReport_example_eq

end TaxCalc
